import Mathlib

/-!
Shallow embedding of the `disport` display-layout manager (`src/main.py`)
together with the parts of its `display` and `command` modules that the
claims need.  Python strings are modelled over `List Char` with
structurally recursive helpers so every definition evaluates inside the
kernel; Python exceptions are modelled by an explicit error type.
-/

/-- Error values a run of the program can raise.  `parseError` models the
exception raised by `display.Resolution` on a malformed token,
`indexError` models Python's built-in `IndexError` (list subscript out of
range), `valueError` models Python's `ValueError` (raised by `max` on an
empty sequence). -/
inductive PyError where
  | parseError
  | indexError
  | valueError
deriving DecidableEq, Repr

/-- Characters `'0'`..`'9'`. -/
def isDigitChar (c : Char) : Bool := '0' ≤ c && c ≤ '9'

/-- Decimal value of a digit list (list already checked to be all digits). -/
def charsToNat (cs : List Char) : Nat :=
  cs.foldl (fun n c => n * 10 + (c.toNat - 48)) 0

/-- Python `int(s)` on a token: succeeds only on a non-empty all-digit
string, as the spec requires "numeric components". -/
def charsToNat? (cs : List Char) : Option Nat :=
  if cs ≠ [] ∧ cs.all isDigitChar then some (charsToNat cs) else none

/-- Python `s.split(sep)` for a single-character separator: splits at every
occurrence, keeping empty fragments (so `"".split` gives `[""]`). -/
def splitChar (c : Char) : List Char → List (List Char)
  | [] => [[]]
  | a :: rest =>
    let r := splitChar c rest
    if a = c then [] :: r
    else
      match r with
      | [] => [[a]]
      | g :: gs => (a :: g) :: gs

/-- Python `s.strip(" ")`: remove spaces from both ends. -/
def stripSpaces (cs : List Char) : List Char :=
  ((cs.dropWhile (fun c => c = ' ')).reverse.dropWhile (fun c => c = ' ')).reverse

/-- Whether `n` is a prefix of `h` (on character lists). -/
def isPrefixChars : List Char → List Char → Bool
  | [], _ => true
  | _ :: _, [] => false
  | a :: as, b :: bs => a = b && isPrefixChars as bs

/-- Whether `n` occurs as a contiguous substring of the second list;
models Python's `n in s`. -/
def isInfixChars (n : List Char) : List Char → Bool
  | [] => n.isEmpty
  | b :: bs => isPrefixChars n (b :: bs) || isInfixChars n bs

/-- Python `line.startswith(" ")`. -/
def startsWithSpace (line : String) : Bool :=
  match line.toList with
  | [] => false
  | c :: _ => c = ' '

/-- First whitespace-split token of a line: Python `line.split(" ")[0]`. -/
def firstToken (line : String) : String :=
  String.mk ((splitChar ' ' line.toList).headD [])

/-- Python `" connected" in line` (main.py line 33). -/
def containsConnected (line : String) : Bool :=
  isInfixChars " connected".toList line.toList

/-- Resolution value: a width and a height. -/
structure Resolution where
  width : Nat
  height : Nat
deriving DecidableEq, Repr

/-- Modelled from the spec: `Resolution.to_string` of the absent `display`
module renders the canonical `"<width>x<height>"` form (spec §4.1). -/
def Resolution.render (r : Resolution) : String :=
  Nat.repr r.width ++ "x" ++ Nat.repr r.height

/-- Modelled from the spec: `Resolution.parse` of the absent `display`
module splits the token on `x` and requires exactly two numeric components,
failing with a parse error otherwise (spec §4.1). -/
def parseResolution (tok : String) : Except PyError Resolution :=
  match splitChar 'x' tok.toList with
  | [w, h] =>
    match charsToNat? w, charsToNat? h with
    | some wn, some hn => Except.ok ⟨wn, hn⟩
    | _, _ => Except.error PyError.parseError
  | _ => Except.error PyError.parseError

/-- Display: an output name and its ordered supported resolutions.
Equality between displays in the Python code is by name only (spec §4.2). -/
structure Display where
  name : String
  resolutions : List Resolution
deriving DecidableEq, Repr

/-- Modelled from the spec: `Display.__and__` of the absent `display`
module intersects two resolution lists by equality (spec §4.2
`common_with`), here keeping the left operand's order. -/
def commonWith (a b : List Resolution) : List Resolution :=
  a.filter (fun r => decide (r ∈ b))

/-- Modelled from the spec: the `Resolution` ordering of the absent
`display` module compares by total pixel count, ties broken by width
descending (spec §3), as a Boolean strict-less-than used by `max`. -/
def resLt (a b : Resolution) : Bool :=
  decide (a.width * a.height < b.width * b.height ∨
    (a.width * a.height = b.width * b.height ∧ b.width < a.width))

/-- Python `max` over a resolution list: `none` on the empty list (where
Python raises `ValueError`), else the fold keeping the current element
unless a strictly greater one appears. -/
def listMax : List Resolution → Option Resolution
  | [] => none
  | x :: xs => some (xs.foldl (fun cur y => if resLt cur y then y else cur) x)

/-- Inner loop of `Controller.__init__` (main.py lines 38-46): consume the
lines following a connected-display header while they start with a space,
parsing the first token of each as a resolution; stop at the first
non-indented line. -/
def collectResolutions : List String → Except PyError (List Resolution)
  | [] => Except.ok []
  | line :: rest =>
    if startsWithSpace line then
      match parseResolution (String.mk ((splitChar ' ' (stripSpaces line.toList)).headD [])) with
      | Except.error e => Except.error e
      | Except.ok r =>
        match collectResolutions rest with
        | Except.error e => Except.error e
        | Except.ok rs => Except.ok (r :: rs)
    else Except.ok []

/-- Outer loop of `Controller.__init__` (main.py lines 31-50): every line
containing `" connected"` opens a display whose name is the line's first
token and whose resolutions are collected from the following lines. -/
def scanDisplays : List String → Except PyError (List Display)
  | [] => Except.ok []
  | line :: rest =>
    if containsConnected line then
      match collectResolutions rest with
      | Except.error e => Except.error e
      | Except.ok rs =>
        match scanDisplays rest with
        | Except.error e => Except.error e
        | Except.ok ds => Except.ok (⟨firstToken line, rs⟩ :: ds)
    else scanDisplays rest

/-- Controller state after a successful `__init__`: the parsed display
list, known non-empty because line 53 (`self._displays[0]`) succeeded. -/
structure Controller where
  displays : List Display
  ne : displays ≠ []

/-- The built-in display: `self._builtIn = self._displays[0]` (line 53). -/
def Controller.builtIn (c : Controller) : Display :=
  c.displays.head c.ne

/-- `Controller.__init__` over the already-split query output lines:
scan for displays, then take `displays[0]`, which on an empty list raises
`IndexError` (main.py line 53 has no emptiness guard). -/
def controllerInit (lines : List String) : Except PyError Controller :=
  match scanDisplays lines with
  | Except.error e => Except.error e
  | Except.ok [] => Except.error PyError.indexError
  | Except.ok (d :: ds) => Except.ok ⟨d :: ds, List.cons_ne_nil d ds⟩

/-- `Controller.get_common_resolutions` (main.py lines 56-66): start from
the built-in display's resolutions and intersect with each remaining
display's list in order. -/
def commonResolutions (c : Controller) : List Resolution :=
  (c.displays.drop 1).foldl (fun acc d => commonWith acc d.resolutions)
    c.builtIn.resolutions

/-- Exit-or-crash result of a run.  Python exits with the given code, or
terminates on an uncaught exception (which the interpreter reports with a
traceback and exit status 1). -/
inductive Outcome where
  | exited (code : Nat)
  | crashed (e : PyError)
deriving DecidableEq, Repr

/-- Exit status of the process: `sys.exit(n)` gives `n`, an uncaught
exception gives 1. -/
def exitCodeOf : Outcome → Nat
  | Outcome.exited n => n
  | Outcome.crashed _ => 1

/-- Result of one layout operation: messages printed, argument fragments
appended to the `xrandr` apply command, whether `cmd.call()` ran, and how
the operation ended. -/
structure OpResult where
  messages : List String
  directives : List String
  applied : Bool
  outcome : Outcome
deriving DecidableEq, Repr

/-- Off-directive loop of `Controller.reduce_viewport` (main.py line 95):
`for disp in (x for x in self._displays if x != disp)`.  The loop variable
`disp` shadows the parameter, and the generator reads it afresh on each
step, so each display is compared against the name bound by the previous
iteration (initially the target), not against the target throughout. -/
def reduceOff : List Display → String → List String
  | [], _ => []
  | d :: rest, cur =>
    if d.name = cur then reduceOff rest cur
    else ("--output " ++ d.name ++ " --off") :: reduceOff rest d.name

/-- `Controller.reduce_viewport` (main.py lines 82-99). -/
def reduceViewport (c : Controller) (target : Display) : OpResult :=
  { messages := ["Reduced viewport."]
  , directives :=
      ["--output", target.name, "--auto", "--rotate normal", "--pos 0x0"]
        ++ reduceOff c.displays target.name
  , applied := true
  , outcome := Outcome.exited 0 }

/-- `Controller.clone_viewport` (main.py lines 102-122).  With more than
one display it takes `max(self.get_common_resolutions())` with no
emptiness guard, so an empty common set raises `ValueError` before any
directive is built. -/
def cloneViewport (c : Controller) : OpResult :=
  if 1 < c.displays.length then
    match listMax (commonResolutions c) with
    | none =>
      { messages := [], directives := [], applied := false
      , outcome := Outcome.crashed PyError.valueError }
    | some m =>
      { messages := ["Cloned viewport."]
      , directives := c.displays.flatMap (fun d =>
          ["--output " ++ d.name, "--mode " ++ m.render,
           "--rotate normal", "--pos 0x0"])
      , applied := true
      , outcome := Outcome.exited 0 }
  else
    { messages := ["Only one display connected. Cannot clone."]
    , directives := [], applied := false, outcome := Outcome.exited 0 }

/-- `xrandr` direction normalisation of `Controller.extend_viewport`
(main.py lines 136-143). -/
def normalizeDirection (d : String) : Option String :=
  if d = "right" ∨ d = "r" then some "right"
  else if d = "left" ∨ d = "l" then some "left"
  else none

/-- Chain loop of `Controller.extend_viewport` (main.py lines 153-160):
place each display that is not the built-in one, anchoring it to the
previously placed display's name. -/
def extendChain (dir b : String) : List Display → String → List String
  | [], _ => []
  | d :: rest, prev =>
    if d.name = b then extendChain dir b rest prev
    else
      ["--output " ++ d.name, "--auto", "--rotate normal",
       "--" ++ dir ++ "-of " ++ prev] ++ extendChain dir b rest d.name

/-- `Controller.extend_viewport` (main.py lines 125-163): count check
first, then direction normalisation, then the built-in block followed by
the chain over the remaining displays. -/
def extendViewport (c : Controller) (dir : String) : OpResult :=
  if c.displays.length < 2 then
    { messages := ["Bad number of displays."], directives := []
    , applied := false, outcome := Outcome.exited 1 }
  else
    match normalizeDirection dir with
    | none =>
      { messages := ["Bad direction."], directives := []
      , applied := false, outcome := Outcome.exited 1 }
    | some nd =>
      { messages := ["Extended viewport."]
      , directives :=
          ["--output " ++ c.builtIn.name, "--auto", "--rotate normal", "--pos 0x0"]
            ++ extendChain nd c.builtIn.name c.displays c.builtIn.name
      , applied := true
      , outcome := Outcome.exited 0 }

/-- Result of a whole program run: number of `xrandr -q` query calls made,
then the fields of the chosen operation's result. -/
structure MainResult where
  queries : Nat
  messages : List String
  directives : List String
  applied : Bool
  outcome : Outcome
deriving DecidableEq, Repr

/-- Wrap an operation result as a program result; the single query of
`Controller.__init__` has already happened. -/
def liftOp (r : OpResult) : MainResult :=
  { queries := 1, messages := r.messages, directives := r.directives
  , applied := r.applied, outcome := r.outcome }

/-- `main` (main.py lines 166-191) over the command-line arguments after
the program name and the query output lines: exit 1 with no query when no
arguments are given; otherwise construct the `Controller` (one query) and
dispatch on the mode token, reading `args[1]` (a possible `IndexError`)
only in extend mode. -/
def mainRun (args : List String) (queryLines : List String) : MainResult :=
  match args with
  | [] =>
    { queries := 0, messages := [], directives := [], applied := false
    , outcome := Outcome.exited 1 }
  | mode :: rest =>
    match controllerInit queryLines with
    | Except.error e =>
      { queries := 1, messages := [], directives := [], applied := false
      , outcome := Outcome.crashed e }
    | Except.ok c =>
      if mode = "clone" ∨ mode = "c" then liftOp (cloneViewport c)
      else if mode = "extend" ∨ mode = "e" then
        match rest with
        | [] =>
          { queries := 1, messages := [], directives := [], applied := false
          , outcome := Outcome.crashed PyError.indexError }
        | d :: _ => liftOp (extendViewport c d)
      else if mode = "solo" ∨ mode = "s" then
        liftOp (reduceViewport c c.builtIn)
      else
        { queries := 1, messages := [], directives := [], applied := false
        , outcome := Outcome.exited 1 }

/-- Modelled from the spec: the extend chain as §4.3 words it — for each
remaining display in list order a block anchored `<direction>-of` the
previously placed display, the anchor starting at the built-in display and
becoming the just-placed display after each step.  Stated over the list of
remaining displays (the built-in one already excluded) for comparison with
`extendChain`. -/
def specChain (dir : String) : String → List Display → List String
  | _, [] => []
  | prev, d :: rest =>
    ["--output " ++ d.name, "--auto", "--rotate normal",
     "--" ++ dir ++ "-of " ++ prev] ++ specChain dir d.name rest

theorem resLt_irrefl (a : Resolution) : resLt a a = false := by
  simp only [resLt, decide_eq_false_iff_not]
  omega

theorem resLt_trans {a b c : Resolution} (h1 : resLt a b = true)
    (h2 : resLt b c = true) : resLt a c = true := by
  simp only [resLt, decide_eq_true_eq] at h1 h2 ⊢
  omega

theorem resLt_neg_trans {a b c : Resolution} (h1 : resLt a b = false)
    (h2 : resLt b c = false) : resLt a c = false := by
  simp only [resLt, decide_eq_false_iff_not] at h1 h2 ⊢
  omega

theorem foldlMax_spec (xs : List Resolution) (cur : Resolution) :
    (xs.foldl (fun m y => if resLt m y then y else m) cur = cur ∨
      xs.foldl (fun m y => if resLt m y then y else m) cur ∈ xs) ∧
    resLt (xs.foldl (fun m y => if resLt m y then y else m) cur) cur = false ∧
    ∀ x ∈ xs, resLt (xs.foldl (fun m y => if resLt m y then y else m) cur) x = false := by
  induction xs generalizing cur with
  | nil =>
    refine ⟨Or.inl rfl, resLt_irrefl cur, ?_⟩
    intro x hx
    exact absurd hx (List.not_mem_nil x)
  | cons y ys ih =>
    simp only [List.foldl_cons]
    by_cases hc : resLt cur y = true
    · rw [if_pos hc]
      obtain ⟨hmem, hcur, hall⟩ := ih y
      refine ⟨?_, ?_, ?_⟩
      · rcases hmem with h | h
        · exact Or.inr (by rw [h]; exact List.mem_cons_self y ys)
        · exact Or.inr (List.mem_cons_of_mem y h)
      · cases hmc : resLt (ys.foldl (fun m y => if resLt m y then y else m) y) cur with
        | false => rfl
        | true => rw [resLt_trans hmc hc] at hcur; exact hcur
      · intro x hx
        rcases List.mem_cons.mp hx with h | h
        · exact h ▸ hcur
        · exact hall x h
    · rw [if_neg hc]
      have hcf : resLt cur y = false := Bool.eq_false_iff.mpr hc
      obtain ⟨hmem, hcur, hall⟩ := ih cur
      refine ⟨?_, hcur, ?_⟩
      · rcases hmem with h | h
        · exact Or.inl h
        · exact Or.inr (List.mem_cons_of_mem y h)
      · intro x hx
        rcases List.mem_cons.mp hx with h | h
        · exact h ▸ resLt_neg_trans hcur hcf
        · exact hall x h

theorem listMax_spec {l : List Resolution} {m : Resolution}
    (h : listMax l = some m) : m ∈ l ∧ ∀ x ∈ l, resLt m x = false := by
  cases l with
  | nil => exact absurd h (by simp [listMax])
  | cons x xs =>
    have hm : xs.foldl (fun cur y => if resLt cur y then y else cur) x = m := by
      simpa [listMax] using h
    obtain ⟨hmem, hcur, hall⟩ := foldlMax_spec xs x
    rw [hm] at hmem hcur hall
    refine ⟨?_, ?_⟩
    · rcases hmem with h' | h'
      · exact h' ▸ List.mem_cons_self x xs
      · exact List.mem_cons_of_mem x h'
    · intro r hr
      rcases List.mem_cons.mp hr with h' | h'
      · exact h' ▸ hcur
      · exact hall r h'

theorem mem_foldl_common (ds : List Display) (init : List Resolution)
    (r : Resolution) :
    r ∈ ds.foldl (fun acc d => commonWith acc d.resolutions) init ↔
      r ∈ init ∧ ∀ d ∈ ds, r ∈ d.resolutions := by
  induction ds generalizing init with
  | nil => simp
  | cons d ds ih =>
    rw [List.foldl_cons, ih]
    simp only [commonWith, List.mem_filter, decide_eq_true_eq,
      List.forall_mem_cons]
    tauto

theorem mem_commonResolutions (c : Controller) (r : Resolution) :
    r ∈ commonResolutions c ↔ ∀ d ∈ c.displays, r ∈ d.resolutions := by
  obtain ⟨ds, ne⟩ := c
  cases ds with
  | nil => exact absurd rfl ne
  | cons d tl =>
    simp only [commonResolutions, Controller.builtIn, List.head_cons,
      List.drop_one, List.tail_cons, mem_foldl_common, List.forall_mem_cons]

theorem extendChain_eq_specChain (dir b : String) (ds : List Display)
    (prev : String) :
    extendChain dir b ds prev =
      specChain dir prev (ds.filter (fun d => decide (d.name ≠ b))) := by
  induction ds generalizing prev with
  | nil => rfl
  | cons d rest ih =>
    by_cases h : d.name = b
    · simp [extendChain, List.filter_cons, h, ih]
    · simp [extendChain, List.filter_cons, h, ih, specChain]

theorem cloneViewport_single (c : Controller) (h : c.displays.length = 1) :
    cloneViewport c =
      { messages := ["Only one display connected. Cannot clone."]
      , directives := [], applied := false, outcome := Outcome.exited 0 } := by
  unfold cloneViewport
  rw [if_neg (by omega)]

theorem cloneViewport_max (c : Controller) (m : Resolution)
    (h2 : 1 < c.displays.length)
    (hmax : listMax (commonResolutions c) = some m) :
    cloneViewport c =
      { messages := ["Cloned viewport."]
      , directives := c.displays.flatMap (fun d =>
          ["--output " ++ d.name, "--mode " ++ m.render,
           "--rotate normal", "--pos 0x0"])
      , applied := true, outcome := Outcome.exited 0 } := by
  unfold cloneViewport
  rw [if_pos h2, hmax]

theorem extendViewport_few (c : Controller) (dir : String)
    (h : c.displays.length < 2) :
    extendViewport c dir =
      { messages := ["Bad number of displays."], directives := []
      , applied := false, outcome := Outcome.exited 1 } := by
  unfold extendViewport
  rw [if_pos h]

theorem extendViewport_bad (c : Controller) (dir : String)
    (h2 : ¬ c.displays.length < 2) (hn : normalizeDirection dir = none) :
    extendViewport c dir =
      { messages := ["Bad direction."], directives := []
      , applied := false, outcome := Outcome.exited 1 } := by
  unfold extendViewport
  rw [if_neg h2, hn]

theorem extendViewport_norm (c : Controller) (raw nd : String)
    (h2 : ¬ c.displays.length < 2) (hn : normalizeDirection raw = some nd) :
    extendViewport c raw =
      { messages := ["Extended viewport."]
      , directives :=
          ["--output " ++ c.builtIn.name, "--auto", "--rotate normal", "--pos 0x0"]
            ++ specChain nd c.builtIn.name
                (c.displays.filter (fun d => decide (d.name ≠ c.builtIn.name)))
      , applied := true, outcome := Outcome.exited 0 } := by
  unfold extendViewport
  rw [if_neg h2, hn]
  show OpResult.mk ["Extended viewport."]
      (["--output " ++ c.builtIn.name, "--auto", "--rotate normal", "--pos 0x0"]
        ++ extendChain nd c.builtIn.name c.displays c.builtIn.name)
      true (Outcome.exited 0) = _
  rw [extendChain_eq_specChain]

theorem mainRun_dispatch_clone (q : List String) (c : Controller)
    (mode : String) (rest : List String)
    (hinit : controllerInit q = Except.ok c)
    (hm : mode = "clone" ∨ mode = "c") :
    mainRun (mode :: rest) q = liftOp (cloneViewport c) := by
  rcases hm with h | h <;> subst h <;>
    · simp only [mainRun, hinit]
      rw [if_pos (by tauto)]

theorem mainRun_dispatch_extend (q : List String) (c : Controller)
    (mode d : String) (rest : List String)
    (hinit : controllerInit q = Except.ok c)
    (hm : mode = "extend" ∨ mode = "e") :
    mainRun (mode :: d :: rest) q = liftOp (extendViewport c d) := by
  rcases hm with h | h <;> subst h <;>
    · simp only [mainRun, hinit]
      rw [if_neg (by decide), if_pos (by decide)]

theorem mainRun_dispatch_extend_noarg (q : List String) (c : Controller)
    (mode : String)
    (hinit : controllerInit q = Except.ok c)
    (hm : mode = "extend" ∨ mode = "e") :
    mainRun [mode] q =
      { queries := 1, messages := [], directives := [], applied := false
      , outcome := Outcome.crashed PyError.indexError } := by
  rcases hm with h | h <;> subst h <;>
    · simp only [mainRun, hinit]
      rw [if_neg (by decide), if_pos (by decide)]

theorem mainRun_dispatch_solo (q : List String) (c : Controller)
    (mode : String) (rest : List String)
    (hinit : controllerInit q = Except.ok c)
    (hm : mode = "solo" ∨ mode = "s") :
    mainRun (mode :: rest) q = liftOp (reduceViewport c c.builtIn) := by
  rcases hm with h | h <;> subst h <;>
    · simp only [mainRun, hinit]
      rw [if_neg (by decide), if_neg (by decide), if_pos (by decide)]

theorem mainRun_dispatch_unknown (q : List String) (c : Controller)
    (mode : String) (rest : List String)
    (hinit : controllerInit q = Except.ok c)
    (hm : mode ∉ (["clone", "c", "extend", "e", "solo", "s"] : List String)) :
    mainRun (mode :: rest) q =
      { queries := 1, messages := [], directives := [], applied := false
      , outcome := Outcome.exited 1 } := by
  simp only [List.mem_cons, List.not_mem_nil, or_false, not_or] at hm
  obtain ⟨h1, h2, h3, h4, h5, h6⟩ := hm
  simp only [mainRun, hinit]
  rw [if_neg (by tauto), if_neg (by tauto), if_neg (by tauto)]

/-! Concrete fixtures used by witnesses and counterexamples. -/

/-- Two connected displays with disjoint resolution sets. -/
def dA : Display := ⟨"A", [⟨800, 600⟩]⟩

/-- Second display of the disjoint pair. -/
def dB : Display := ⟨"B", [⟨640, 480⟩]⟩

/-- Controller over the disjoint pair. -/
def cAB : Controller := ⟨[dA, dB], List.cons_ne_nil dA [dB]⟩

/-- Controller with a single connected display. -/
def cSolo : Controller := ⟨[dA], List.cons_ne_nil dA []⟩

/-- First display of the spec §8 clone example. -/
def exA : Display := ⟨"eDP1", [⟨1920, 1080⟩, ⟨1280, 720⟩]⟩

/-- Second display of the spec §8 clone example. -/
def exB : Display := ⟨"HDMI1", [⟨1920, 1080⟩, ⟨1024, 768⟩]⟩

/-- Third display of the spec §8 clone example. -/
def exC : Display := ⟨"DP1", [⟨1920, 1080⟩]⟩

/-- Controller over the spec §8 clone example displays. -/
def cEx : Controller := ⟨[exA, exB, exC], List.cons_ne_nil exA [exB, exC]⟩

/-- Query output with one connected display offering one resolution. -/
def qOne : List String := ["A connected primary", " 800x600 60.00*+", "B disconnected"]

/-- Query output in which no line contains the substring used to detect a
connected display. -/
def qNone : List String :=
  ["Screen 0: minimum 320 x 200", "HDMI1 disconnected (normal inverted)"]

/-- Claim C1 (corrected): with at least two connected displays and an
empty common-resolution set, `clone_viewport` emits no directives and no
user message: line 108 takes `max` of the empty list, which raises an
uncaught `ValueError` — the code does not detect the empty intersection,
contrary to the claim's explicit-user-message behaviour. -/
theorem clone_empty_common_crashes (c : Controller)
    (h2 : 1 < c.displays.length) (he : commonResolutions c = []) :
    cloneViewport c =
      { messages := [], directives := [], applied := false
      , outcome := Outcome.crashed PyError.valueError } := by
  unfold cloneViewport
  rw [if_pos h2, he]
  rfl

/-- Witness for C1's amended claim at the disjoint two-display pair. -/
theorem clone_empty_common_crashes_witness :
    (1 < cAB.displays.length ∧ commonResolutions cAB = []) ∧
    cloneViewport cAB =
      { messages := [], directives := [], applied := false
      , outcome := Outcome.crashed PyError.valueError } :=
  ⟨⟨by decide, by decide⟩, clone_empty_common_crashes cAB (by decide) (by decide)⟩

/-- Counterexample to C1 as stated: on two connected displays with no
shared resolution, `clone_viewport` prints no user message and ends in an
uncaught `ValueError` (a crash), instead of failing with an explicit user
message. -/
theorem clone_empty_common_counterexample :
    (cloneViewport cAB).messages = [] ∧
    (cloneViewport cAB).directives = [] ∧
    (cloneViewport cAB).outcome = Outcome.crashed PyError.valueError := by
  decide

/-- Claim C2 (code bug): called with target `B`, the second of two
connected displays, `reduce_viewport` emits an off directive for the
target itself (and for every display), because the loop variable `disp`
on line 95 shadows the parameter, so each display is compared against the
previously emitted one rather than against the target.  The claim (and
the code's own comment "Turn off output of all other displays") promises
exactly one off directive per non-target display and none for the target. -/
theorem reduce_viewport_turns_off_target :
    dB ∈ cAB.displays ∧
    (reduceViewport cAB dB).directives =
      ["--output", "B", "--auto", "--rotate normal", "--pos 0x0",
       "--output A --off", "--output B --off"] ∧
    "--output B --off" ∈ (reduceViewport cAB dB).directives := by
  refine ⟨by decide, by decide, by decide⟩

/-- Claim C3 (confirmed): for a valid direction token and at least two
connected displays, `extend_viewport` emits the built-in display's block
at position 0x0 and then, for each remaining display in list order, a
block anchored `<direction>-of` the previously placed display (the chain
of `specChain`), with the direction normalised from its shorthand. -/
theorem extend_valid_direction_chains (c : Controller) (raw : String)
    (h2 : 2 ≤ c.displays.length)
    (hdir : raw ∈ (["left", "l", "right", "r"] : List String)) :
    ∃ nd, normalizeDirection raw = some nd ∧
      ((raw = "left" ∨ raw = "l") → nd = "left") ∧
      ((raw = "right" ∨ raw = "r") → nd = "right") ∧
      extendViewport c raw =
        { messages := ["Extended viewport."]
        , directives :=
            ["--output " ++ c.builtIn.name, "--auto", "--rotate normal", "--pos 0x0"]
              ++ specChain nd c.builtIn.name
                  (c.displays.filter (fun d => decide (d.name ≠ c.builtIn.name)))
        , applied := true, outcome := Outcome.exited 0 } := by
  have hlt : ¬ c.displays.length < 2 := by omega
  simp only [List.mem_cons, List.not_mem_nil, or_false] at hdir
  rcases hdir with h | h | h | h <;> subst h
  · exact ⟨"left", rfl, fun _ => rfl, fun h => absurd h (by decide),
      extendViewport_norm c "left" "left" hlt rfl⟩
  · exact ⟨"left", rfl, fun _ => rfl, fun h => absurd h (by decide),
      extendViewport_norm c "l" "left" hlt rfl⟩
  · exact ⟨"right", rfl, fun h => absurd h (by decide), fun _ => rfl,
      extendViewport_norm c "right" "right" hlt rfl⟩
  · exact ⟨"right", rfl, fun h => absurd h (by decide), fun _ => rfl,
      extendViewport_norm c "r" "right" hlt rfl⟩

/-- Witness for C3 at the three-display example: `B` is placed right of
the built-in `A`-role display and `C` right of `B`, not right of the
built-in one. -/
theorem extend_valid_direction_chains_witness :
    (2 ≤ cEx.displays.length ∧
      "right" ∈ (["left", "l", "right", "r"] : List String)) ∧
    extendViewport cEx "right" =
      { messages := ["Extended viewport."]
      , directives :=
          ["--output eDP1", "--auto", "--rotate normal", "--pos 0x0",
           "--output HDMI1", "--auto", "--rotate normal", "--right-of eDP1",
           "--output DP1", "--auto", "--rotate normal", "--right-of HDMI1"]
      , applied := true, outcome := Outcome.exited 0 } := by
  refine ⟨⟨by decide, by decide⟩, ?_⟩
  obtain ⟨nd, hn, hl, hr, heq⟩ :=
    extend_valid_direction_chains cEx "right" (by decide) (by decide)
  have hnd : nd = "right" := hr (Or.inl rfl)
  subst hnd
  rw [heq]
  rfl

/-- Claim C4 (confirmed): with at least two connected displays and a
non-empty common set, `clone_viewport` picks the maximum of the common
resolutions (member of the set, no member strictly greater) and emits for
every connected display, in list order, a block with exactly that mode,
normal rotation and position 0x0; the common set is precisely the set of
resolutions supported by every connected display (built-in first, then
pairwise intersection in list order). -/
theorem clone_selects_max_common (c : Controller) (m : Resolution)
    (h2 : 1 < c.displays.length)
    (hmax : listMax (commonResolutions c) = some m) :
    cloneViewport c =
      { messages := ["Cloned viewport."]
      , directives := c.displays.flatMap (fun d =>
          ["--output " ++ d.name, "--mode " ++ m.render,
           "--rotate normal", "--pos 0x0"])
      , applied := true, outcome := Outcome.exited 0 } ∧
    m ∈ commonResolutions c ∧
    (∀ r ∈ commonResolutions c, resLt m r = false) ∧
    (∀ r, r ∈ commonResolutions c ↔ ∀ d ∈ c.displays, r ∈ d.resolutions) := by
  obtain ⟨hmem, hall⟩ := listMax_spec hmax
  exact ⟨cloneViewport_max c m h2 hmax, hmem, hall,
    fun r => mem_commonResolutions c r⟩

/-- Witness for C4 at the spec §8 example: the common set is exactly
1920x1080 and that mode is written for all three displays. -/
theorem clone_selects_max_common_witness :
    commonResolutions cEx = [⟨1920, 1080⟩] ∧
    cloneViewport cEx =
      { messages := ["Cloned viewport."]
      , directives :=
          ["--output eDP1", "--mode 1920x1080", "--rotate normal", "--pos 0x0",
           "--output HDMI1", "--mode 1920x1080", "--rotate normal", "--pos 0x0",
           "--output DP1", "--mode 1920x1080", "--rotate normal", "--pos 0x0"]
      , applied := true, outcome := Outcome.exited 0 } := by
  refine ⟨by decide, ?_⟩
  have h := (clone_selects_max_common cEx ⟨1920, 1080⟩ (by decide) (by decide)).1
  rw [h]
  rfl

/-- Claim C5 (corrected): when the scan of the query output yields zero
connected displays, `Controller.__init__` fails — but with Python's
generic `IndexError` from `self._displays[0]` on line 53, not with a
named `NoDisplaysFoundError`; no such error class exists in the code. -/
theorem init_zero_displays_index_error (lines : List String)
    (h : scanDisplays lines = Except.ok []) :
    controllerInit lines = Except.error PyError.indexError := by
  unfold controllerInit
  rw [h]

/-- Witness for C5's amended claim at a query output with no connected
display line. -/
theorem init_zero_displays_index_error_witness :
    scanDisplays qNone = Except.ok ([] : List Display) ∧
    controllerInit qNone = Except.error PyError.indexError :=
  ⟨rfl, init_zero_displays_index_error qNone rfl⟩

/-- Counterexample to C5 as stated: on this zero-display query output the
construction ends in the generic `IndexError`, the only failure the code
can produce here; it never raises a named `NoDisplaysFoundError`. -/
theorem init_zero_displays_counterexample :
    controllerInit qNone = Except.error PyError.indexError := rfl

/-- Display parsed from `qOne`. -/
def dQ : Display := ⟨"A", [⟨800, 600⟩]⟩

/-- Controller parsed from `qOne`. -/
def cQ : Controller := ⟨[dQ], List.cons_ne_nil dQ []⟩

/-- Query output with two connected displays sharing a resolution. -/
def qTwo : List String :=
  ["A connected primary", " 800x600 60.00*+", "B connected", " 800x600 60.00"]

/-- Second display parsed from `qTwo`. -/
def dQ2b : Display := ⟨"B", [⟨800, 600⟩]⟩

/-- Controller parsed from `qTwo`. -/
def cQ2 : Controller := ⟨[dQ, dQ2b], List.cons_ne_nil dQ [dQ2b]⟩

/-- Claim C6 (confirmed): with a successfully constructed controller, the
process exits 0 on solo, on clone with a common resolution, on the
one-display cannot-clone case, and on a valid extend; it exits 1 on
missing arguments, an unknown mode token, a bad extend direction, and an
insufficient display count for extend. -/
theorem program_exit_codes (q : List String) (c : Controller)
    (rest : List String) (hinit : controllerInit q = Except.ok c) :
    (mainRun [] q).outcome = Outcome.exited 1 ∧
    ((mainRun ("solo" :: rest) q).outcome = Outcome.exited 0 ∧
      (mainRun ("s" :: rest) q).outcome = Outcome.exited 0) ∧
    (∀ m, 1 < c.displays.length → listMax (commonResolutions c) = some m →
      (mainRun ("clone" :: rest) q).outcome = Outcome.exited 0 ∧
      (mainRun ("c" :: rest) q).outcome = Outcome.exited 0) ∧
    (c.displays.length = 1 →
      (mainRun ("clone" :: rest) q).outcome = Outcome.exited 0 ∧
      (mainRun ("clone" :: rest) q).messages =
        ["Only one display connected. Cannot clone."]) ∧
    (∀ d nd, normalizeDirection d = some nd → 2 ≤ c.displays.length →
      (mainRun ("extend" :: d :: rest) q).outcome = Outcome.exited 0 ∧
      (mainRun ("e" :: d :: rest) q).outcome = Outcome.exited 0) ∧
    (∀ mode, mode ∉ (["clone", "c", "extend", "e", "solo", "s"] : List String) →
      (mainRun (mode :: rest) q).outcome = Outcome.exited 1) ∧
    (∀ d, normalizeDirection d = none → 2 ≤ c.displays.length →
      (mainRun ("extend" :: d :: rest) q).outcome = Outcome.exited 1) ∧
    (∀ d, c.displays.length < 2 →
      (mainRun ("extend" :: d :: rest) q).outcome = Outcome.exited 1) := by
  refine ⟨rfl, ⟨?_, ?_⟩, ?_, ?_, ?_, ?_, ?_, ?_⟩
  · rw [mainRun_dispatch_solo q c "solo" rest hinit (Or.inl rfl)]; rfl
  · rw [mainRun_dispatch_solo q c "s" rest hinit (Or.inr rfl)]; rfl
  · intro m h2 hmax
    constructor
    · rw [mainRun_dispatch_clone q c "clone" rest hinit (Or.inl rfl),
        cloneViewport_max c m h2 hmax]
      rfl
    · rw [mainRun_dispatch_clone q c "c" rest hinit (Or.inr rfl),
        cloneViewport_max c m h2 hmax]
      rfl
  · intro h1
    rw [mainRun_dispatch_clone q c "clone" rest hinit (Or.inl rfl),
      cloneViewport_single c h1]
    exact ⟨rfl, rfl⟩
  · intro d nd hn h2
    constructor
    · rw [mainRun_dispatch_extend q c "extend" d rest hinit (Or.inl rfl),
        extendViewport_norm c d nd (by omega) hn]
      rfl
    · rw [mainRun_dispatch_extend q c "e" d rest hinit (Or.inr rfl),
        extendViewport_norm c d nd (by omega) hn]
      rfl
  · intro mode hm
    rw [mainRun_dispatch_unknown q c mode rest hinit hm]
  · intro d hn h2
    rw [mainRun_dispatch_extend q c "extend" d rest hinit (Or.inl rfl),
      extendViewport_bad c d (by omega) hn]
    rfl
  · intro d hlen
    rw [mainRun_dispatch_extend q c "extend" d rest hinit (Or.inl rfl),
      extendViewport_few c d hlen]
    rfl

/-- Witness for C6 at a one-display query output. -/
theorem program_exit_codes_witness :
    (mainRun [] qOne).outcome = Outcome.exited 1 ∧
    (mainRun ["solo"] qOne).outcome = Outcome.exited 0 ∧
    (mainRun ["clone"] qOne).outcome = Outcome.exited 0 ∧
    (mainRun ["clone"] qOne).messages =
      ["Only one display connected. Cannot clone."] ∧
    (mainRun ["bogus"] qOne).outcome = Outcome.exited 1 ∧
    (mainRun ["extend", "left"] qOne).outcome = Outcome.exited 1 := by
  have h := program_exit_codes qOne cQ [] rfl
  exact ⟨h.1, h.2.1.1, (h.2.2.2.1 rfl).1, (h.2.2.2.1 rfl).2,
    h.2.2.2.2.2.1 "bogus" (by decide),
    h.2.2.2.2.2.2.2 "left" (by decide)⟩

/-- Claim C7 (confirmed): extend with a missing second argument crashes on
`args[1]` with `IndexError` before any directive is built (the interpreter
prints the traceback diagnostic and exits 1); extend with an invalid
direction prints a diagnostic ("Bad direction.", or "Bad number of
displays." when fewer than two displays are connected), exits 1, and emits
no directives. -/
theorem extend_missing_or_invalid_direction (q : List String)
    (c : Controller) (hinit : controllerInit q = Except.ok c) :
    (∀ mode, (mode = "extend" ∨ mode = "e") →
      mainRun [mode] q =
        { queries := 1, messages := [], directives := [], applied := false
        , outcome := Outcome.crashed PyError.indexError } ∧
      exitCodeOf (mainRun [mode] q).outcome = 1) ∧
    (∀ mode d rest, (mode = "extend" ∨ mode = "e") →
      normalizeDirection d = none →
      (mainRun (mode :: d :: rest) q).directives = [] ∧
      (mainRun (mode :: d :: rest) q).applied = false ∧
      exitCodeOf (mainRun (mode :: d :: rest) q).outcome = 1 ∧
      (mainRun (mode :: d :: rest) q).messages ≠ [] ∧
      (2 ≤ c.displays.length →
        (mainRun (mode :: d :: rest) q).messages = ["Bad direction."])) := by
  constructor
  · intro mode hm
    rw [mainRun_dispatch_extend_noarg q c mode hinit hm]
    exact ⟨rfl, rfl⟩
  · intro mode d rest hm hn
    rw [mainRun_dispatch_extend q c mode d rest hinit hm]
    by_cases hlen : c.displays.length < 2
    · rw [extendViewport_few c d hlen]
      exact ⟨rfl, rfl, rfl, by decide, fun h2 => absurd hlen (by omega)⟩
    · rw [extendViewport_bad c d hlen hn]
      exact ⟨rfl, rfl, rfl, by decide, fun _ => rfl⟩

/-- Witness for C7 at a two-display query output with direction "up". -/
theorem extend_missing_or_invalid_direction_witness :
    mainRun ["extend"] qTwo =
      { queries := 1, messages := [], directives := [], applied := false
      , outcome := Outcome.crashed PyError.indexError } ∧
    (mainRun ["extend", "up"] qTwo).messages = ["Bad direction."] ∧
    exitCodeOf (mainRun ["extend", "up"] qTwo).outcome = 1 ∧
    (mainRun ["extend", "up"] qTwo).directives = [] := by
  obtain ⟨h1, h2⟩ := extend_missing_or_invalid_direction qTwo cQ2 rfl
  obtain ⟨hd, ha, he, hne, hmsg⟩ := h2 "extend" "up" [] (Or.inl rfl) rfl
  exact ⟨(h1 "extend" (Or.inl rfl)).1, hmsg (by decide), he, hd⟩

/-- Claim C8 (confirmed): `extend_viewport` checks the display count
before looking at the direction: with fewer than two connected displays
it reports "Bad number of displays." and exits 1 for every direction
string, valid or not, and never reports the direction error. -/
theorem extend_count_checked_before_direction (c : Controller)
    (dir : String) (h : c.displays.length < 2) :
    extendViewport c dir =
      { messages := ["Bad number of displays."], directives := []
      , applied := false, outcome := Outcome.exited 1 } ∧
    (extendViewport c dir).messages ≠ ["Bad direction."] := by
  refine ⟨extendViewport_few c dir h, ?_⟩
  rw [extendViewport_few c dir h]
  decide

/-- Witness for C8 on one display with the invalid direction "up". -/
theorem extend_count_checked_before_direction_witness :
    cSolo.displays.length < 2 ∧
    extendViewport cSolo "up" =
      { messages := ["Bad number of displays."], directives := []
      , applied := false, outcome := Outcome.exited 1 } ∧
    (extendViewport cSolo "up").messages ≠ ["Bad direction."] :=
  ⟨by decide, (extend_count_checked_before_direction cSolo "up" (by decide)).1,
    (extend_count_checked_before_direction cSolo "up" (by decide)).2⟩

/-- Claim C9 (confirmed): in solo mode the reduce operation is applied to
the first display parsed from the query output (the built-in display),
whatever the remaining command-line arguments are; no argument can select
a different target. -/
theorem solo_targets_first_parsed_display (q rest : List String)
    (d : Display) (ds : List Display)
    (hscan : scanDisplays q = Except.ok (d :: ds)) :
    ∀ mode, mode = "solo" ∨ mode = "s" →
      mainRun (mode :: rest) q =
        liftOp (reduceViewport ⟨d :: ds, List.cons_ne_nil d ds⟩ d) := by
  have hinit : controllerInit q =
      Except.ok ⟨d :: ds, List.cons_ne_nil d ds⟩ := by
    unfold controllerInit
    rw [hscan]
  intro mode hm
  rw [mainRun_dispatch_solo q _ mode rest hinit hm]
  rfl

/-- Witness for C9: extra arguments are ignored and the target is the
first parsed display. -/
theorem solo_targets_first_parsed_display_witness :
    scanDisplays qOne = Except.ok [dQ] ∧
    mainRun ["solo", "junk"] qOne =
      liftOp (reduceViewport ⟨[dQ], List.cons_ne_nil dQ []⟩ dQ) :=
  ⟨rfl, solo_targets_first_parsed_display qOne ["junk"] dQ [] rfl
    "solo" (Or.inl rfl)⟩

/-- Claim C10 (confirmed): any invocation with at least one argument
performs exactly one external query (the controller is constructed before
the mode token is examined): a failed construction decides the run
regardless of the mode, and an unrecognized mode still has query count 1
when it exits with status 1. -/
theorem query_precedes_mode_dispatch (q args : List String)
    (h : args ≠ []) :
    (mainRun args q).queries = 1 ∧
    (∀ e, controllerInit q = Except.error e →
      (mainRun args q).outcome = Outcome.crashed e) ∧
    (∀ c mode rest, args = mode :: rest → controllerInit q = Except.ok c →
      mode ∉ (["clone", "c", "extend", "e", "solo", "s"] : List String) →
      mainRun args q =
        { queries := 1, messages := [], directives := [], applied := false
        , outcome := Outcome.exited 1 }) := by
  cases args with
  | nil => exact absurd rfl h
  | cons mode rest =>
    refine ⟨?_, ?_, ?_⟩
    · rcases hq : controllerInit q with e | c
      · simp only [mainRun, hq]
      · by_cases h1 : mode = "clone" ∨ mode = "c"
        · rw [mainRun_dispatch_clone q c mode rest hq h1]; rfl
        · by_cases h2 : mode = "extend" ∨ mode = "e"
          · cases rest with
            | nil => rw [mainRun_dispatch_extend_noarg q c mode hq h2]
            | cons d tl =>
              rw [mainRun_dispatch_extend q c mode d tl hq h2]; rfl
          · by_cases h3 : mode = "solo" ∨ mode = "s"
            · rw [mainRun_dispatch_solo q c mode rest hq h3]; rfl
            · have hm : mode ∉
                  (["clone", "c", "extend", "e", "solo", "s"] : List String) := by
                simp only [List.mem_cons, List.not_mem_nil, or_false]
                tauto
              rw [mainRun_dispatch_unknown q c mode rest hq hm]
    · intro e he
      simp only [mainRun, he]
    · intro c mode' rest' heq hok hm
      injection heq with ha hb
      subst ha
      subst hb
      exact mainRun_dispatch_unknown q c mode rest hok hm

/-- Witness for C10: an unknown mode still queries once and exits 1, and
with a display-free query output the crash of construction decides the
run for any mode. -/
theorem query_precedes_mode_dispatch_witness :
    (mainRun ["bogus"] qOne).queries = 1 ∧
    mainRun ["bogus"] qOne =
      { queries := 1, messages := [], directives := [], applied := false
      , outcome := Outcome.exited 1 } ∧
    (mainRun ["clone"] qNone).outcome = Outcome.crashed PyError.indexError := by
  obtain ⟨hq, hcr, hunk⟩ := query_precedes_mode_dispatch qOne ["bogus"] (by decide)
  obtain ⟨hq2, hcr2, hunk2⟩ := query_precedes_mode_dispatch qNone ["clone"] (by decide)
  exact ⟨hq, hunk cQ "bogus" [] rfl rfl (by decide),
    hcr2 PyError.indexError rfl⟩
